import Mathlib

/-!
Shallow embedding of the AMS Profit Levers Simulator (src/app.py).

Real-valued quantities of the Python source (floats) are modelled as
rationals `ℚ`; Python `int(...)` truncation is modelled by `pyTrunc`;
Python `range(a, b, step)` by `pyRange`; Python float division, which
raises `ZeroDivisionError` on a zero divisor, by the partial `pyDiv`.
The `math.inf` sentinel used by the break-even computation is modelled
by the tagged type `BreakEven`.
-/

/-- The display-currency selector: the source stores the strings
`"AUD '000"` (native) and `"THB '000"` (foreign). -/
inductive Currency where
  | native : Currency
  | foreign : Currency
deriving DecidableEq, Repr

/-- Python `int(x)` on a real value: truncation toward zero. -/
def pyTrunc (q : ℚ) : ℤ :=
  if 0 ≤ q then ⌊q⌋ else ⌈q⌉

/-- Python `a / b` on floats: raises `ZeroDivisionError` (here `none`)
when `b = 0`, otherwise produces the quotient. -/
def pyDiv (a b : ℚ) : Option ℚ :=
  if b = 0 then none else some (a / b)

/-- Number of elements of Python `range a b step` for a positive step. -/
def pyRangeLen (a b step : ℤ) : ℕ :=
  ((b - a + step - 1) / step).toNat

/-- Python `list(range(a, b, step))` for a positive step. -/
def pyRange (a b step : ℤ) : List ℤ :=
  (List.range (pyRangeLen a b step)).map (fun (i : ℕ) => a + step * (i : ℤ))

/-- `BASELINE_ANNUAL["external_sales"]` (src/app.py line 26). -/
def BASELINE_ANNUAL_external_sales : ℚ := 8658

/-- `BASELINE_ANNUAL["internal_sales"]` (src/app.py line 27). -/
def BASELINE_ANNUAL_internal_sales : ℚ := 8245

/-- `BASELINE_ANNUAL["fixed_costs"]` (src/app.py line 28). -/
def BASELINE_ANNUAL_fixed_costs : ℚ := 3702

/-- `BASELINE_MONTHLY["external_sales"]` (src/app.py line 31). -/
def BASELINE_MONTHLY_external_sales : ℚ := BASELINE_ANNUAL_external_sales / 12

/-- `BASELINE_MONTHLY["internal_sales"]` (src/app.py line 32). -/
def BASELINE_MONTHLY_internal_sales : ℚ := BASELINE_ANNUAL_internal_sales / 12

/-- `BASELINE_MONTHLY["fixed_costs"]` (src/app.py line 33). -/
def BASELINE_MONTHLY_fixed_costs : ℚ := BASELINE_ANNUAL_fixed_costs / 12

/-- `BASELINE_MONTHLY["efficiency"]` (src/app.py line 34). -/
def BASELINE_MONTHLY_efficiency : ℚ := 51 / 100

/-- `BASELINE_MONTHLY["ext_cost_pct"]` (src/app.py line 35). -/
def BASELINE_MONTHLY_ext_cost_pct : ℚ := 80 / 100

/-- `BASELINE_MONTHLY["int_cost_pct"]` (src/app.py line 36). -/
def BASELINE_MONTHLY_int_cost_pct : ℚ := 50 / 100

/-- `BASELINE_MONTHLY["repairs"]` (src/app.py line 37). -/
def BASELINE_MONTHLY_repairs : ℚ := 0

/-- `BASELINE_MONTHLY["fx"]` (src/app.py line 38). -/
def BASELINE_MONTHLY_fx : ℚ := 0

/-- The scenario session state: the `st.session_state` keys written by
`reset_to_baseline` (src/app.py lines 42-52). -/
structure ScenarioState where
  currency : Currency
  fx_rate : ℚ
  ext_sales_m : ℚ
  int_sales_m : ℚ
  ext_cost_pct : ℚ
  int_cost_pct : ℚ
  efficiency : ℚ
  fixed_m : ℚ
  repairs_m : ℚ
  fx_m : ℚ
deriving DecidableEq, Repr

/-- `reset_to_baseline` (src/app.py lines 42-52): overwrites every
session-state field with its baseline value, ignoring the prior state. -/
def reset_to_baseline (_s : ScenarioState) : ScenarioState :=
  { currency := Currency.native
    fx_rate := 24
    ext_sales_m := BASELINE_MONTHLY_external_sales
    int_sales_m := BASELINE_MONTHLY_internal_sales
    ext_cost_pct := BASELINE_MONTHLY_ext_cost_pct
    int_cost_pct := BASELINE_MONTHLY_int_cost_pct
    efficiency := BASELINE_MONTHLY_efficiency
    fixed_m := BASELINE_MONTHLY_fixed_costs
    repairs_m := BASELINE_MONTHLY_repairs
    fx_m := BASELINE_MONTHLY_fx }

/-- `mult` (src/app.py line 66): the native-to-display scale factor. -/
def mult (c : Currency) (fx_rate : ℚ) : ℚ :=
  if c = Currency.native then 1 else fx_rate

/-- `conv` (src/app.py line 68): the display-to-native scale factor,
computed as `1.0 / fx_rate` in the foreign branch with no guard on the
rate (a zero rate raises `ZeroDivisionError`, modelled as `none`). -/
def conv (c : Currency) (fx_rate : ℚ) : Option ℚ :=
  if c = Currency.native then some 1 else pyDiv 1 fx_rate

/-- Conversion of a stored native amount to display units: the source
multiplies by `mult` (e.g. src/app.py line 78). -/
def to_display (x : ℚ) (c : Currency) (fx_rate : ℚ) : ℚ :=
  x * mult c fx_rate

/-- Conversion of a display amount back to native units: the source
multiplies by `conv` (src/app.py lines 131-135). -/
def to_native (y : ℚ) (c : Currency) (fx_rate : ℚ) : Option ℚ :=
  (conv c fx_rate).map (fun k => y * k)

/-- `to_native` as the spec's words describe it (§4.3): the converter
itself rejects a non-positive rate before dividing. -/
def to_native_guarded (y : ℚ) (c : Currency) (fx_rate : ℚ) : Option ℚ :=
  if c = Currency.native then some y
  else if fx_rate ≤ 0 then none
  else some (y / fx_rate)

/-- `ext_base_margin` (src/app.py line 139). -/
def ext_base_margin (ext_cost_pct : ℚ) : ℚ := max 0 (1 - ext_cost_pct)

/-- `int_base_margin` (src/app.py line 140). -/
def int_base_margin (int_cost_pct : ℚ) : ℚ := max 0 (1 - int_cost_pct)

/-- `ext_gp` (src/app.py line 142). -/
def ext_gp (ext_sales ext_cost_pct efficiency : ℚ) : ℚ :=
  ext_sales * ext_base_margin ext_cost_pct * efficiency

/-- `int_gp` (src/app.py line 143). -/
def int_gp (int_sales int_cost_pct efficiency : ℚ) : ℚ :=
  int_sales * int_base_margin int_cost_pct * efficiency

/-- `total_gp` (src/app.py line 144). -/
def total_gp (ext_sales int_sales ext_cost_pct int_cost_pct efficiency : ℚ) : ℚ :=
  ext_gp ext_sales ext_cost_pct efficiency + int_gp int_sales int_cost_pct efficiency

/-- `op` (src/app.py line 145): monthly operating profit. -/
def op (ext_sales int_sales ext_cost_pct int_cost_pct efficiency fixed repairs fx : ℚ) : ℚ :=
  total_gp ext_sales int_sales ext_cost_pct int_cost_pct efficiency - fixed - repairs + fx

/-- The break-even result: a finite value or the `math.inf` sentinel. -/
inductive BreakEven where
  | finite : ℚ → BreakEven
  | inf : BreakEven
deriving DecidableEq, Repr

/-- `be_ext_sales` (src/app.py lines 148-152): break-even external sales,
`max(0, (fixed + repairs - fx - int_gp) / den)` when the denominator
`ext_base_margin * efficiency` is positive, else `math.inf`. -/
def be_ext_sales (int_sales ext_cost_pct int_cost_pct efficiency fixed repairs fx : ℚ) : BreakEven :=
  let den := ext_base_margin ext_cost_pct * efficiency
  if 0 < den then
    BreakEven.finite (max 0 ((fixed + repairs - fx - int_gp int_sales int_cost_pct efficiency) / den))
  else
    BreakEven.inf

/-- `base` (src/app.py line 169): the centre of the sensitivity sweep. -/
def sens_base (ext_sales : ℚ) : ℤ :=
  pyTrunc (if 0 < ext_sales then ext_sales else BASELINE_MONTHLY_external_sales)

/-- `step` (src/app.py line 170). -/
def sens_step (ext_sales : ℚ) : ℤ :=
  max 20 (pyTrunc ((sens_base ext_sales : ℚ) * (10 / 100)))

/-- `sizes` (src/app.py line 171): the swept external-sales values,
`range(int(base*0.5), int(base*1.8) + 1, step)`. -/
def sizes (ext_sales : ℚ) : List ℤ :=
  pyRange (pyTrunc ((sens_base ext_sales : ℚ) * (5 / 10)))
    (pyTrunc ((sens_base ext_sales : ℚ) * (18 / 10)) + 1)
    (sens_step ext_sales)

/-- `rows` (src/app.py lines 172-176): the sensitivity series of
(external sales, operating profit) pairs. -/
def rows (ext_sales int_sales ext_cost_pct int_cost_pct efficiency fixed repairs fx : ℚ) :
    List (ℤ × ℚ) :=
  (sizes ext_sales).map (fun s =>
    (s, (s : ℚ) * ext_base_margin ext_cost_pct * efficiency
          + int_gp int_sales int_cost_pct efficiency - fixed - repairs + fx))

/-- C5: `reset_to_baseline`, from any state, sets every field to its
baseline value: native currency, rate 24, external sales 8658/12,
internal sales 8245/12, fixed costs 3702/12, external cost 0.80,
internal cost 0.50, efficiency 0.51, repairs 0, FX 0. -/
theorem reset_sets_all_fields_to_baseline (s : ScenarioState) :
    reset_to_baseline s =
      { currency := Currency.native
        fx_rate := 24
        ext_sales_m := 8658 / 12
        int_sales_m := 8245 / 12
        ext_cost_pct := 80 / 100
        int_cost_pct := 50 / 100
        efficiency := 51 / 100
        fixed_m := 3702 / 12
        repairs_m := 0
        fx_m := 0 } := by
  rfl

/-- C6: reset is idempotent: resetting twice from any starting state
yields exactly the state obtained by resetting once. -/
theorem reset_idempotent (s : ScenarioState) :
    reset_to_baseline (reset_to_baseline s) = reset_to_baseline s := by
  rfl

/-- C3: converting a non-negative amount to display units and back to
native units returns the amount exactly (hence within 1e-9), for either
currency selector and any exchange rate in [10, 50]. -/
theorem currency_round_trip (x : ℚ) (c : Currency) (r : ℚ)
    (hx : 0 ≤ x) (hr1 : 10 ≤ r) (hr2 : r ≤ 50) :
    to_native (to_display x c r) c r = some x := by
  have hr : r ≠ 0 := by positivity
  cases c <;> simp [to_native, to_display, conv, mult, pyDiv, hr]

/-- Witness for C3 at `x = 7`, foreign selector, rate 24. -/
theorem currency_round_trip_witness :
    to_native (to_display 7 Currency.foreign 24) Currency.foreign 24 = some 7 :=
  currency_round_trip 7 Currency.foreign 24 (by norm_num) (by norm_num) (by norm_num)

/-- C9 counterexample: the code's converter performs no guard on the
rate: at rate −5 (≤ 0) with the foreign selector it executes the
division and yields a value, where the spec-worded guarded converter
rejects. -/
theorem conv_no_guard_counterexample :
    to_native 1 Currency.foreign (-5) = some (-(1 / 5)) ∧
    to_native_guarded 1 Currency.foreign (-5) = none := by
  constructor
  · simp [to_native, conv, pyDiv]
    norm_num
  · simp [to_native_guarded]

/-- C9 amended: the converter itself has no rate guard; it divides by
the rate whenever the foreign selector is chosen. The rate positivity
needed for that division comes only from the UI boundary, which
restricts the rate to [10, 50]: under that restriction the rate is
positive and the division succeeds. -/
theorem conv_division_safe_under_ui_range (y r : ℚ)
    (h1 : 10 ≤ r) (h2 : r ≤ 50) :
    0 < r ∧ to_native y Currency.foreign r = some (y / r) := by
  have hr : 0 < r := by linarith
  refine ⟨hr, ?_⟩
  simp [to_native, conv, pyDiv, ne_of_gt hr]
  ring

/-- Witness for C9's amended theorem at `y = 3`, rate 24. -/
theorem conv_division_safe_under_ui_range_witness :
    0 < (24 : ℚ) ∧ to_native 3 Currency.foreign 24 = some (3 / 24) :=
  conv_division_safe_under_ui_range 3 24 (by norm_num) (by norm_num)

/-- C2: holding all else fixed, operating profit is non-decreasing in
external sales, non-decreasing in internal sales, non-decreasing in
efficiency (sales non-negative), non-increasing in fixed costs, and
non-increasing in repairs. -/
theorem op_monotone :
    (∀ es1 es2 isl ecp icp eff fixed rep fx : ℚ, 0 ≤ eff → es1 ≤ es2 →
      op es1 isl ecp icp eff fixed rep fx ≤ op es2 isl ecp icp eff fixed rep fx) ∧
    (∀ es isl1 isl2 ecp icp eff fixed rep fx : ℚ, 0 ≤ eff → isl1 ≤ isl2 →
      op es isl1 ecp icp eff fixed rep fx ≤ op es isl2 ecp icp eff fixed rep fx) ∧
    (∀ es isl ecp icp eff1 eff2 fixed rep fx : ℚ, 0 ≤ es → 0 ≤ isl → eff1 ≤ eff2 →
      op es isl ecp icp eff1 fixed rep fx ≤ op es isl ecp icp eff2 fixed rep fx) ∧
    (∀ es isl ecp icp eff fixed1 fixed2 rep fx : ℚ, fixed1 ≤ fixed2 →
      op es isl ecp icp eff fixed2 rep fx ≤ op es isl ecp icp eff fixed1 rep fx) ∧
    (∀ es isl ecp icp eff fixed rep1 rep2 fx : ℚ, rep1 ≤ rep2 →
      op es isl ecp icp eff fixed rep2 fx ≤ op es isl ecp icp eff fixed rep1 fx) := by
  refine ⟨?_, ?_, ?_, ?_, ?_⟩
  · intro es1 es2 isl ecp icp eff fixed rep fx heff hle
    simp only [op, total_gp, ext_gp, int_gp]
    have hm : 0 ≤ ext_base_margin ecp := le_max_left 0 (1 - ecp)
    linarith [mul_le_mul_of_nonneg_right (mul_le_mul_of_nonneg_right hle hm) heff]
  · intro es isl1 isl2 ecp icp eff fixed rep fx heff hle
    simp only [op, total_gp, ext_gp, int_gp]
    have hm : 0 ≤ int_base_margin icp := le_max_left 0 (1 - icp)
    linarith [mul_le_mul_of_nonneg_right (mul_le_mul_of_nonneg_right hle hm) heff]
  · intro es isl ecp icp eff1 eff2 fixed rep fx hes hisl hle
    simp only [op, total_gp, ext_gp, int_gp]
    have h1 : 0 ≤ es * ext_base_margin ecp :=
      mul_nonneg hes (le_max_left 0 (1 - ecp))
    have h2 : 0 ≤ isl * int_base_margin icp :=
      mul_nonneg hisl (le_max_left 0 (1 - icp))
    nlinarith [mul_le_mul_of_nonneg_left hle h1, mul_le_mul_of_nonneg_left hle h2]
  · intro es isl ecp icp eff fixed1 fixed2 rep fx hle
    simp only [op, total_gp, ext_gp, int_gp]
    linarith
  · intro es isl ecp icp eff fixed rep1 rep2 fx hle
    simp only [op, total_gp, ext_gp, int_gp]
    linarith

/-- Witness for C2: each monotonicity direction at concrete inputs. -/
theorem op_monotone_witness :
    op 1 0 0 0 1 0 0 0 ≤ op 2 0 0 0 1 0 0 0 ∧
    op 0 1 0 0 1 0 0 0 ≤ op 0 2 0 0 1 0 0 0 ∧
    op 1 1 0 0 1 0 0 0 ≤ op 1 1 0 0 2 0 0 0 ∧
    op 1 1 0 0 1 3 0 0 ≤ op 1 1 0 0 1 2 0 0 ∧
    op 1 1 0 0 1 0 3 0 ≤ op 1 1 0 0 1 0 2 0 :=
  ⟨op_monotone.1 1 2 0 0 0 1 0 0 0 (by norm_num) (by norm_num),
   op_monotone.2.1 0 1 2 0 0 1 0 0 0 (by norm_num) (by norm_num),
   op_monotone.2.2.1 1 1 0 0 1 2 0 0 0 (by norm_num) (by norm_num) (by norm_num),
   op_monotone.2.2.2.1 1 1 0 0 1 2 3 0 0 (by norm_num),
   op_monotone.2.2.2.2 1 1 0 0 1 0 2 3 0 (by norm_num)⟩

/-- C10: with non-negative sales and efficiency, external, internal and
total gross profit are non-negative for arbitrary cost percentages,
because each base margin is clamped below at zero. -/
theorem gp_nonneg (es isl ecp icp eff : ℚ)
    (hes : 0 ≤ es) (hisl : 0 ≤ isl) (heff : 0 ≤ eff) :
    0 ≤ ext_gp es ecp eff ∧ 0 ≤ int_gp isl icp eff ∧
    0 ≤ total_gp es isl ecp icp eff := by
  have h1 : 0 ≤ ext_gp es ecp eff :=
    mul_nonneg (mul_nonneg hes (le_max_left 0 (1 - ecp))) heff
  have h2 : 0 ≤ int_gp isl icp eff :=
    mul_nonneg (mul_nonneg hisl (le_max_left 0 (1 - icp))) heff
  exact ⟨h1, h2, add_nonneg h1 h2⟩

/-- Witness for C10 at sales 5 and 7, cost percentages 3 and 1/2,
efficiency 1/2. -/
theorem gp_nonneg_witness :
    0 ≤ ext_gp 5 3 (1 / 2) ∧ 0 ≤ int_gp 7 (1 / 2) (1 / 2) ∧
    0 ≤ total_gp 5 7 3 (1 / 2) (1 / 2) :=
  gp_nonneg 5 7 3 (1 / 2) (1 / 2) (by norm_num) (by norm_num) (by norm_num)

/-- C4: with `ext_cost_pct = 1` the external base margin is 0, the
break-even denominator is 0, and the computation takes the sentinel
branch, returning infinity for any efficiency in [0.30, 0.80]. -/
theorem be_inf_when_ext_cost_one (isl icp eff fixed rep fx : ℚ)
    (h1 : 30 / 100 ≤ eff) (h2 : eff ≤ 80 / 100) :
    be_ext_sales isl 1 icp eff fixed rep fx = BreakEven.inf := by
  simp [be_ext_sales, ext_base_margin]

/-- Witness for C4 at the baseline efficiency 0.51. -/
theorem be_inf_when_ext_cost_one_witness :
    be_ext_sales 0 1 (1 / 2) (51 / 100) 10 0 0 = BreakEven.inf :=
  be_inf_when_ext_cost_one 0 (1 / 2) (51 / 100) 10 0 0 (by norm_num) (by norm_num)

/-- C1 counterexample: with internal sales 100, both cost percentages
0.5, efficiency 0.51 and zero fixed costs, repairs and FX, the break-even
computation clamps its negative solution to the finite value 0, and
recomputing operating profit with external sales 0 gives 25.5, not 0
(far outside the 1e-6 tolerance). -/
theorem be_substitution_zero_counterexample :
    be_ext_sales 100 (1 / 2) (1 / 2) (51 / 100) 0 0 0 = BreakEven.finite 0 ∧
    ¬ |op 0 100 (1 / 2) (1 / 2) (51 / 100) 0 0 0| ≤ 1 / 1000000 := by
  constructor
  · norm_num [be_ext_sales, ext_base_margin, int_base_margin, int_gp]
  · have h : op 0 100 (1 / 2) (1 / 2) (51 / 100) 0 0 0 = 51 / 2 := by
      norm_num [op, total_gp, ext_gp, int_gp, ext_base_margin, int_base_margin]
    rw [not_le, h, abs_of_nonneg] <;> norm_num

/-- C1 amended: when the break-even value is finite and its pre-clamp
numerator `fixed + repairs - fx - int_gp` is non-negative (so the
clamp to 0 does not engage), substituting it for external sales makes
operating profit exactly 0. -/
theorem be_substitution_exact (isl ecp icp eff fixed rep fx b : ℚ)
    (hisl : 0 ≤ isl) (hfixed : 0 ≤ fixed) (hrep : 0 ≤ rep)
    (hecp1 : 0 ≤ ecp) (hecp2 : ecp ≤ 1) (hicp1 : 0 ≤ icp) (hicp2 : icp ≤ 1)
    (heff1 : 30 / 100 ≤ eff) (heff2 : eff ≤ 80 / 100)
    (hclamp : 0 ≤ fixed + rep - fx - int_gp isl icp eff)
    (hfin : be_ext_sales isl ecp icp eff fixed rep fx = BreakEven.finite b) :
    op b isl ecp icp eff fixed rep fx = 0 := by
  simp only [be_ext_sales] at hfin
  by_cases hden : 0 < ext_base_margin ecp * eff
  · rw [if_pos hden] at hfin
    injection hfin with hb
    have hbv : b = (fixed + rep - fx - int_gp isl icp eff) / (ext_base_margin ecp * eff) := by
      rw [← hb]
      exact max_eq_right (div_nonneg hclamp hden.le)
    have key : b * (ext_base_margin ecp * eff) = fixed + rep - fx - int_gp isl icp eff := by
      rw [hbv]
      exact div_mul_cancel₀ _ (ne_of_gt hden)
    simp only [op, total_gp, ext_gp, int_gp] at key ⊢
    linear_combination key
  · rw [if_neg hden] at hfin
    exact absurd hfin (by simp)

/-- Witness for C1's amended theorem: internal sales 0, cost
percentages 0.5, efficiency 0.5, fixed costs 10 give break-even 40,
and operating profit at external sales 40 is 0. -/
theorem be_substitution_exact_witness :
    op 40 0 (1 / 2) (1 / 2) (1 / 2) 10 0 0 = 0 :=
  be_substitution_exact 0 (1 / 2) (1 / 2) (1 / 2) 10 0 0 40
    (by norm_num) (by norm_num) (by norm_num) (by norm_num) (by norm_num)
    (by norm_num) (by norm_num) (by norm_num) (by norm_num)
    (by norm_num [int_gp, int_base_margin])
    (by norm_num [be_ext_sales, ext_base_margin, int_base_margin, int_gp])

/-- C7 counterexample: with the baseline inputs the computed break-even
is 177725/136 ≈ 1306.8, which differs from the claimed 1305.8 by more
than 1/2 (indeed by ≈ 1.0), so the claimed value is wrong even at its
own one-decimal precision. -/
theorem baseline_break_even_counterexample :
    be_ext_sales (8245 / 12) (80 / 100) (50 / 100) (51 / 100) (3702 / 12) 0 0 =
      BreakEven.finite (177725 / 136) ∧
    (1 : ℚ) / 2 < |(177725 : ℚ) / 136 - 13058 / 10| := by
  constructor
  · norm_num [be_ext_sales, ext_base_margin, int_base_margin, int_gp]
  · have h : (177725 : ℚ) / 136 - 13058 / 10 = 681 / 680 := by norm_num
    rw [h, abs_of_nonneg] <;> norm_num

/-- C7 amended: at the baseline inputs the model computes external base
margin 0.20, internal base margin 0.50, external GP ≈ 73.59, internal
GP ≈ 175.21, total GP ≈ 248.80, operating profit ≈ −59.70 (each within
0.01 of the quoted figure), and break-even 177725/136 ≈ 1306.8 (within
0.01 of 1306.8, not of the claimed 1305.8). -/
theorem baseline_scenario_values :
    ext_base_margin (80 / 100) = 20 / 100 ∧
    int_base_margin (50 / 100) = 50 / 100 ∧
    |ext_gp (8658 / 12) (80 / 100) (51 / 100) - 7359 / 100| ≤ 1 / 100 ∧
    |int_gp (8245 / 12) (50 / 100) (51 / 100) - 17521 / 100| ≤ 1 / 100 ∧
    |total_gp (8658 / 12) (8245 / 12) (80 / 100) (50 / 100) (51 / 100) - 24880 / 100| ≤ 1 / 100 ∧
    |op (8658 / 12) (8245 / 12) (80 / 100) (50 / 100) (51 / 100) (3702 / 12) 0 0 + 5970 / 100| ≤ 1 / 100 ∧
    be_ext_sales (8245 / 12) (80 / 100) (50 / 100) (51 / 100) (3702 / 12) 0 0 =
      BreakEven.finite (177725 / 136) ∧
    |(177725 : ℚ) / 136 - 13068 / 10| ≤ 1 / 100 := by
  refine ⟨?_, ?_, ?_, ?_, ?_, ?_, ?_, ?_⟩
  · norm_num [ext_base_margin]
  · norm_num [int_base_margin]
  · norm_num [ext_gp, ext_base_margin, abs_le]
  · norm_num [int_gp, int_base_margin, abs_le]
  · norm_num [total_gp, ext_gp, int_gp, ext_base_margin, int_base_margin, abs_le]
  · norm_num [op, total_gp, ext_gp, int_gp, ext_base_margin, int_base_margin, abs_le]
  · norm_num [be_ext_sales, ext_base_margin, int_base_margin, int_gp]
  · norm_num [abs_le]

/-- The elements of `pyRange` are strictly increasing for a positive step. -/
theorem pyRange_pairwise (a b step : ℤ) (hstep : 0 < step) :
    (pyRange a b step).Pairwise (· < ·) := by
  unfold pyRange
  rw [List.pairwise_map]
  refine (List.pairwise_lt_range _).imp ?_
  intro i j hij
  have hij2 : (i : ℤ) < (j : ℤ) := by exact_mod_cast hij
  have := mul_lt_mul_of_pos_left hij2 hstep
  omega

/-- `pyRange` is non-empty when the interval is: a positive step and
`a < b` give at least one element. -/
theorem pyRange_ne_nil (a b step : ℤ) (hstep : 0 < step) (hab : a < b) :
    pyRange a b step ≠ [] := by
  unfold pyRange pyRangeLen
  have h1 : (1 : ℤ) ≤ (b - a + step - 1) / step := by
    rw [Int.le_ediv_iff_mul_le hstep]
    omega
  simp only [ne_eq, List.map_eq_nil_iff, List.range_eq_nil]
  omega

/-- Every element of `pyRange a b step` lies in `[a, b)` for a positive
step, exactly as Python's `range`. -/
theorem pyRange_mem_bounds (a b step : ℤ) (hstep : 0 < step) (x : ℤ)
    (hx : x ∈ pyRange a b step) : a ≤ x ∧ x < b := by
  unfold pyRange at hx
  obtain ⟨i, hi, rfl⟩ := List.mem_map.mp hx
  rw [List.mem_range] at hi
  constructor
  · have : 0 ≤ step * (i : ℤ) := mul_nonneg hstep.le (by positivity)
    omega
  · unfold pyRangeLen at hi
    have hmul : step * ((b - a + step - 1) / step) ≤ b - a + step - 1 := by
      have hmod : 0 ≤ (b - a + step - 1) % step := Int.emod_nonneg _ (ne_of_gt hstep)
      have := Int.ediv_add_emod (b - a + step - 1) step
      omega
    have hiq : (i : ℤ) ≤ (b - a + step - 1) / step - 1 := by omega
    have h2 : step * (i : ℤ) ≤ step * ((b - a + step - 1) / step - 1) :=
      mul_le_mul_of_nonneg_left hiq hstep.le
    have h3 : step * ((b - a + step - 1) / step - 1) =
        step * ((b - a + step - 1) / step) - step := by ring
    omega

/-- The sweep centre is a non-negative integer whenever the current
external sales are non-negative. -/
theorem sens_base_nonneg (es : ℚ) (hes : 0 ≤ es) : 0 ≤ sens_base es := by
  unfold sens_base
  split
  · unfold pyTrunc
    rw [if_pos hes]
    exact Int.floor_nonneg.mpr hes
  · have h721 : pyTrunc BASELINE_MONTHLY_external_sales = 721 := by
      norm_num [pyTrunc, BASELINE_MONTHLY_external_sales, BASELINE_ANNUAL_external_sales]
    rw [h721]
    norm_num

/-- The sweep step is positive (it is at least 20). -/
theorem sens_step_pos (es : ℚ) : 0 < sens_step es :=
  lt_of_lt_of_le (by norm_num) (le_max_left 20 _)

/-- The swept external-sales values: at least one, strictly increasing,
and each within `[base/2 - 1, 1.8 * base]` of the integer sweep centre
(the lower endpoint can undershoot `base/2` by up to 1 because the
source truncates `base * 0.5` to an integer). -/
theorem sizes_bounds (es : ℚ) (hes : 0 ≤ es) :
    sizes es ≠ [] ∧
    (sizes es).Pairwise (· < ·) ∧
    ∀ s ∈ sizes es,
      (sens_base es : ℚ) * (5 / 10) - 1 ≤ (s : ℚ) ∧
      (s : ℚ) ≤ (sens_base es : ℚ) * (18 / 10) := by
  have hbase : 0 ≤ sens_base es := sens_base_nonneg es hes
  have hbq : (0 : ℚ) ≤ (sens_base es : ℚ) := by exact_mod_cast hbase
  have hstep : 0 < sens_step es := sens_step_pos es
  have ha : pyTrunc ((sens_base es : ℚ) * (5 / 10)) = ⌊(sens_base es : ℚ) * (5 / 10)⌋ := by
    unfold pyTrunc
    rw [if_pos (by positivity)]
  have hb : pyTrunc ((sens_base es : ℚ) * (18 / 10)) = ⌊(sens_base es : ℚ) * (18 / 10)⌋ := by
    unfold pyTrunc
    rw [if_pos (by positivity)]
  have hab : ⌊(sens_base es : ℚ) * (5 / 10)⌋ ≤ ⌊(sens_base es : ℚ) * (18 / 10)⌋ :=
    Int.floor_le_floor (by nlinarith)
  refine ⟨?_, ?_, ?_⟩
  · unfold sizes
    rw [ha, hb]
    exact pyRange_ne_nil _ _ _ hstep (by omega)
  · exact pyRange_pairwise _ _ _ hstep
  · intro s hs
    unfold sizes at hs
    rw [ha, hb] at hs
    obtain ⟨h1, h2⟩ := pyRange_mem_bounds _ _ _ hstep s hs
    constructor
    · have hfl : (sens_base es : ℚ) * (5 / 10) - 1 < (⌊(sens_base es : ℚ) * (5 / 10)⌋ : ℚ) :=
        Int.sub_one_lt_floor _
      have hc : ((⌊(sens_base es : ℚ) * (5 / 10)⌋ : ℤ) : ℚ) ≤ (s : ℚ) := by exact_mod_cast h1
      linarith
    · have h2b : s ≤ ⌊(sens_base es : ℚ) * (18 / 10)⌋ := by omega
      have hfl : ((⌊(sens_base es : ℚ) * (18 / 10)⌋ : ℤ) : ℚ) ≤ (sens_base es : ℚ) * (18 / 10) :=
        Int.floor_le _
      have hc : (s : ℚ) ≤ ((⌊(sens_base es : ℚ) * (18 / 10)⌋ : ℤ) : ℚ) := by exact_mod_cast h2b
      linarith

/-- The first coordinates of the sensitivity series are exactly the
swept external-sales values. -/
theorem rows_map_fst (es isl ecp icp eff fixed rep fx : ℚ) :
    (rows es isl ecp icp eff fixed rep fx).map Prod.fst = sizes es := by
  simp only [rows, List.map_map, Function.comp]
  exact List.map_id _

/-- C8 amended: the sensitivity series is non-empty, strictly
increasing in its first coordinate, and every external-sales value in
it lies within `[0.5*base - 1, 1.8*base]`, where `base` is the integer
truncation of the current external sales (or of the baseline monthly
external sales when the current value is not positive); the lower
endpoint can undershoot `0.5*base` by up to 1 because the source
truncates `base * 0.5` to an integer. -/
theorem rows_series_bounds (es isl ecp icp eff fixed rep fx : ℚ) (hes : 0 ≤ es) :
    rows es isl ecp icp eff fixed rep fx ≠ [] ∧
    ((rows es isl ecp icp eff fixed rep fx).map Prod.fst).Pairwise (· < ·) ∧
    ∀ p ∈ rows es isl ecp icp eff fixed rep fx,
      (sens_base es : ℚ) * (5 / 10) - 1 ≤ (p.1 : ℚ) ∧
      (p.1 : ℚ) ≤ (sens_base es : ℚ) * (18 / 10) := by
  obtain ⟨h1, h2, h3⟩ := sizes_bounds es hes
  refine ⟨?_, ?_, ?_⟩
  · simp only [rows, ne_eq, List.map_eq_nil_iff]
    exact h1
  · rw [rows_map_fst]
    exact h2
  · intro p hp
    obtain ⟨s, hs, rfl⟩ := List.mem_map.mp hp
    exact h3 s hs

/-- Witness for C8's amended theorem at the baseline scenario. -/
theorem rows_series_bounds_witness :
    rows (8658 / 12) (8245 / 12) (80 / 100) (50 / 100) (51 / 100) (3702 / 12) 0 0 ≠ [] ∧
    ((rows (8658 / 12) (8245 / 12) (80 / 100) (50 / 100) (51 / 100) (3702 / 12) 0 0).map
      Prod.fst).Pairwise (· < ·) ∧
    ∀ p ∈ rows (8658 / 12) (8245 / 12) (80 / 100) (50 / 100) (51 / 100) (3702 / 12) 0 0,
      (sens_base (8658 / 12) : ℚ) * (5 / 10) - 1 ≤ (p.1 : ℚ) ∧
      (p.1 : ℚ) ≤ (sens_base (8658 / 12) : ℚ) * (18 / 10) :=
  rows_series_bounds (8658 / 12) (8245 / 12) (80 / 100) (50 / 100) (51 / 100) (3702 / 12) 0 0
    (by norm_num)

/-- C8 counterexample: at the baseline scenario the external sales are
721.5, and the series contains the external-sales value 360, which is
below `0.5 * 721.5 = 360.75` — so not every series value lies within
`[0.5*base, 1.8*base]` of the (untruncated) base. -/
theorem rows_lower_bound_counterexample :
    (360 : ℤ) ∈ (rows (8658 / 12) (8245 / 12) (80 / 100) (50 / 100) (51 / 100)
      (3702 / 12) 0 0).map Prod.fst ∧
    (360 : ℚ) < (5 / 10) * (8658 / 12) := by
  constructor
  · rw [rows_map_fst]
    have h1 : sens_base (8658 / 12 : ℚ) = 721 := by
      norm_num [sens_base, pyTrunc]
    have h2 : sens_step (8658 / 12 : ℚ) = 72 := by
      rw [sens_step, h1]
      norm_num [pyTrunc]
    have h3 : pyTrunc ((721 : ℚ) * (5 / 10)) = 360 := by norm_num [pyTrunc]
    have h4 : pyTrunc ((721 : ℚ) * (18 / 10)) = 1297 := by norm_num [pyTrunc]
    rw [sizes, h1, h2]
    push_cast
    rw [h3, h4]
    decide
  · norm_num
